import Mathlib

/-!
Verification development for the computer-use tool repository.

The embedding below translates the coordinate scaler, the key mapper and the
action dispatcher of `computer_use_demo/tools/computer.py` (the
`computer-use-demo` variant of the file) and the page-navigation tool of
`computer_use_demo/tools/playwright_tool.py`.

Python `float` arithmetic on the quantities involved (ratios of pixel counts,
compared against the tolerance `0.02`, and `round` of such ratios) is modelled
by exact fraction arithmetic: every comparison `a/b < c/d` with positive
denominators is stated in the cross-multiplied integer form `a*d < c*b`, and
Python's `round` (round half to even) of a fraction `p/q` is `pyRound p q`
below. The values arising in the scaler are ratios of integers below 10^7,
whose exact values are separated from the decision boundaries involved by far
more than the ~1e-16 relative error of IEEE doubles, so the exact model and
the float code make identical decisions except for exact rounding ties, where
both round half to even.

The browser driver is modelled by an oracle (`Driver`) saying, for each driver
call issued during one dispatch, whether the call raises and with what
message, and what a screenshot returns.
-/

deriving instance DecidableEq for Except

namespace ComputerUse

/-- The `Resolution` TypedDict of `computer.py`: a width/height pair. -/
structure Resolution where
  width : ℕ
  height : ℕ
deriving DecidableEq, Repr

/-- The `MAX_SCALING_TARGETS` table of `computer.py`, in dict insertion order:
XGA (4:3), WXGA (16:10), FWXGA (~16:9). Iteration over `.values()`
preserves this order. -/
def MAX_SCALING_TARGETS : List Resolution :=
  [⟨1024, 768⟩, ⟨1280, 800⟩, ⟨1366, 768⟩]

def XGA : Resolution := ⟨1024, 768⟩
def WXGA : Resolution := ⟨1280, 800⟩
def FWXGA : Resolution := ⟨1366, 768⟩

/-- The `ScalingSource` StrEnum of `computer.py`. -/
inductive ScalingSource where
  | COMPUTER
  | API
deriving DecidableEq, Repr

/-- Python's `round(p / q)` for a fraction with `0 < q`, computed exactly:
round half to even (banker's rounding), as Python's `round` does.
`Int.fdiv` is flooring division, so `r = p - q * ⌊p/q⌋` is the fractional
part scaled by `q`, with `0 ≤ r < q`; `p/q`'s fractional part is below,
above, or exactly one half according as `2r < q`, `q < 2r`, `2r = q`. -/
def pyRound (p q : ℤ) : ℤ :=
  if 2 * (p - q * Int.fdiv p q) < q then Int.fdiv p q
  else if q < 2 * (p - q * Int.fdiv p q) then Int.fdiv p q + 1
  else if Int.fdiv p q % 2 = 0 then Int.fdiv p q else Int.fdiv p q + 1

/-- The aspect-ratio test of the scan loop in `scale_coordinates`:
`abs(dimension["width"] / dimension["height"] - ratio) < 0.02` with
`ratio = self.width / self.height`, i.e. `|tw/th - W/H| < 1/50`, stated
in the cross-multiplied form `50*|tw*H - th*W| < th*H` (all denominators
positive: `th` is a table constant and the tool asserts `H` nonzero at
construction). -/
def ratioMatches (W H : ℕ) (d : Resolution) : Prop :=
  50 * (Int.natAbs ((d.width : ℤ) * H - (d.height : ℤ) * W)) < d.height * H

instance (W H : ℕ) (d : Resolution) : Decidable (ratioMatches W H d) := by
  unfold ratioMatches; infer_instance

/-- The `for dimension in MAX_SCALING_TARGETS.values(): ... break` loop of
`scale_coordinates`: the loop `break`s after the first aspect-ratio match
whether or not the width test passed, and `target_dimension` stays `None`
when the first ratio match fails `dimension["width"] < self.width`. -/
def scanTargets (W H : ℕ) : List Resolution → Option Resolution
  | [] => none
  | d :: rest =>
    if ratioMatches W H d then
      (if d.width < W then some d else none)
    else scanTargets W H rest

/-- The value of `target_dimension` after the scan loop of
`scale_coordinates`, for a device resolution `(W, H)`. -/
def selectTarget (W H : ℕ) : Option Resolution :=
  scanTargets W H MAX_SCALING_TARGETS

/-- The `ComputerTool._scaling_enabled` class constant. -/
def scaling_enabled : Bool := true

/-- Function `ComputerTool.scale_coordinates(source, x, y)` for a tool whose device
resolution is `(W, H)`. `.error msg` models `raise ToolError(msg)`.
With `x_scaling_factor = tw / W` and `y_scaling_factor = th / H`:
`round(x / x_scaling_factor) = round(x*W / tw)` (scale up, API source) and
`round(x * x_scaling_factor) = round(x*tw / W)` (scale down, COMPUTER
source), exactly. -/
def scale_coordinates (W H : ℕ) (source : ScalingSource) (x y : ℤ) :
    Except String (ℤ × ℤ) :=
  if !scaling_enabled then .ok (x, y)
  else
    match selectTarget W H with
    | none => .ok (x, y)
    | some d =>
      match source with
      | .API =>
        if x > (W : ℤ) ∨ y > (H : ℤ) then
          .error ("Coordinates " ++ toString x ++ ", " ++ toString y ++
            " are out of bounds")
        else
          .ok (pyRound (x * W) d.width, pyRound (y * H) d.height)
      | .COMPUTER =>
        .ok (pyRound (x * d.width) W, pyRound (y * d.height) H)

/-- The `xdotool_to_playwright_key_map` dict of
`ComputerTool.map_xdotool_key_to_playwright_key`, as an association list in
insertion order. -/
def xdotool_to_playwright_key_map : List (String × String) :=
  [("A", "KeyA"), ("B", "KeyB"), ("C", "KeyC"), ("D", "KeyD"), ("E", "KeyE"),
   ("F", "KeyF"), ("G", "KeyG"), ("H", "KeyH"), ("I", "KeyI"), ("J", "KeyJ"),
   ("K", "KeyK"), ("L", "KeyL"), ("M", "KeyM"), ("N", "KeyN"), ("O", "KeyO"),
   ("P", "KeyP"), ("Q", "KeyQ"), ("R", "KeyR"), ("S", "KeyS"), ("T", "KeyT"),
   ("U", "KeyU"), ("V", "KeyV"), ("W", "KeyW"), ("X", "KeyX"), ("Y", "KeyY"),
   ("Z", "KeyZ"),
   ("1", "Digit1"), ("2", "Digit2"), ("3", "Digit3"), ("4", "Digit4"),
   ("5", "Digit5"), ("6", "Digit6"), ("7", "Digit7"), ("8", "Digit8"),
   ("9", "Digit9"), ("0", "Digit0"),
   ("Return", "Enter"), ("Escape", "Escape"), ("BackSpace", "Backspace"),
   ("Tab", "Tab"), ("space", "Space"), ("minus", "Minus"), ("equal", "Equal"),
   ("bracketleft", "BracketLeft"), ("bracketright", "BracketRight"),
   ("backslash", "Backslash"), ("semicolon", "Semicolon"),
   ("apostrophe", "Quote"), ("grave", "Backquote"), ("comma", "Comma"),
   ("period", "Period"), ("slash", "Slash"),
   ("Shift_L", "ShiftLeft"), ("Shift_R", "ShiftRight"),
   ("Control_L", "ControlLeft"), ("Control_R", "ControlRight"),
   ("Alt_L", "AltLeft"), ("Alt_R", "AltRight"),
   ("Meta_L", "MetaLeft"), ("Meta_R", "MetaRight"),
   ("Shift", "ShiftLeft"), ("Control", "ControlLeft"), ("Alt", "AltLeft"),
   ("Meta", "MetaLeft"),
   ("Left", "ArrowLeft"), ("Up", "ArrowUp"), ("Right", "ArrowRight"),
   ("Down", "ArrowDown"), ("Insert", "Insert"), ("Delete", "Delete"),
   ("Home", "Home"), ("End", "End"), ("Page_Up", "PageUp"),
   ("Page_Down", "PageDown"), ("Caps_Lock", "CapsLock"),
   ("Num_Lock", "NumLock"), ("Print", "PrintScreen"),
   ("Scroll_Lock", "ScrollLock")]

/-- Method `ComputerTool.map_xdotool_key_to_playwright_key(text)`: dict lookup with
the untranslated name as fallback (`.get(text, text)`). -/
def map_xdotool_key_to_playwright_key (text : String) : String :=
  (xdotool_to_playwright_key_map.lookup text).getD text

/-- Modelled from the spec: the `ToolResult` dataclass lives in
`computer_use_demo/tools/base.py`, which is not among the given sources; per
the spec's data model it is `{output: string|null, error: string|null, image:
bytes|null}` with every field defaulting to null when a construction site
omits it. `base64_image` is the base64-encoded screenshot. -/
structure ToolResult where
  output : Option String
  error : Option String
  base64_image : Option String
deriving DecidableEq, Repr

/-- The spec's `ToolResult` invariant: exactly one of `output` and `error`
is non-null. -/
def exactlyOneSet (r : ToolResult) : Prop :=
  (r.output ≠ none ∧ r.error = none) ∨ (r.output = none ∧ r.error ≠ none)

instance (r : ToolResult) : Decidable (exactlyOneSet r) := by
  unfold exactlyOneSet; infer_instance

/-- One driver (Playwright page) primitive invoked by the dispatcher, with
its arguments as passed at the call site. -/
inductive DriverCall where
  | move (dx dy : ℤ)
  | down
  | up
  | click (x y : ℤ) (button : String)
  | waitTimeout (ms : ℕ)
  | press (key : String)
  | typeText (s : String) (delayMs : ℕ)
  | screenshot
  | goto (url : String)
  | wheel (dx dy : ℤ)
  | evalZoom (scale : ℤ)
deriving DecidableEq, Repr, BEq

/-- Oracle for the browser capability during one dispatch: for the `n`-th
driver call issued (counting from 0), whether it raises, the exception's
string if it does, and the base64 screenshot it returns if it is a
successful screenshot. -/
structure Driver where
  fails : ℕ → Bool
  errMsg : ℕ → String
  shot : ℕ → String

/-- A driver that never raises and always returns `img` for screenshots. -/
def okDriver (img : String) : Driver :=
  { fails := fun _ => false, errMsg := fun _ => "", shot := fun _ => img }

/-- A driver whose `n`-th call raises with message `m` and all other calls
succeed returning `img` for screenshots. -/
def failAt (n : ℕ) (m : String) (img : String) : Driver :=
  { fails := fun k => decide (k = n), errMsg := fun _ => m,
    shot := fun _ => img }

/-- The virtual cursor: `self.mouse_x`, `self.mouse_y`, initialized to
`(0, 0)` in `__init__`. -/
structure CompState where
  mouse_x : ℤ
  mouse_y : ℤ
deriving DecidableEq, Repr

/-- How one dispatch terminates: a returned `ToolResult`, a raised
`ToolError`, or a raised driver exception (named by the offending call and
carrying its message), which `__call__` does not catch. -/
inductive Outcome where
  | ok (r : ToolResult)
  | toolError (msg : String)
  | driverError (c : DriverCall) (msg : String)
deriving DecidableEq, Repr

/-- Python's `str` of a list of ints, used by the f-strings of the
coordinate validation messages. -/
def fmtIntList (l : List ℤ) : String :=
  "[" ++ String.intercalate ", " (l.map toString) ++ "]"

/-- Method `ComputerTool.__call__(action=..., text=..., coordinate=...)` for a tool
with device resolution `(W, H)` and cursor state `st`, against driver oracle
`drv`. Returns the outcome, the cursor state on exit, and the list of driver
calls issued, in order. Control flow follows the source: validations first,
each raising `ToolError`; for pointer actions the cursor state is assigned
right after scaling, before any driver call; `left_click_drag` releases the
button in a `finally` (an exception from `mouse.up` replaces the pending
outcome, per Python semantics); the `key` action's try/except converts any
exception from the press or the subsequent screenshot into a returned
error result; `double_click` is a default (left) click, a 500 ms wait, then
a left click. -/
def dispatch (W H : ℕ) (action : Option String) (text : Option String)
    (coordinate : Option (List ℤ)) (drv : Driver) (st : CompState) :
    Outcome × CompState × List DriverCall :=
  match action with
  | none => (.toolError "Computer tool cannot be called with no action", st, [])
  | some a =>
    if a = "" then
      (.toolError "Computer tool cannot be called with an empty action", st, [])
    else if a = "mouse_move" ∨ a = "left_click_drag" then
      match coordinate with
      | none => (.toolError ("coordinate is required for " ++ a), st, [])
      | some c =>
        if text.isSome then
          (.toolError ("text is not accepted for " ++ a), st, [])
        else if c.length ≠ 2 then
          (.toolError (fmtIntList c ++ " must be a tuple of length 2"), st, [])
        else if ¬ (c.all fun i => decide (0 ≤ i)) then
          (.toolError (fmtIntList c ++ " must be a tuple of non-negative ints"),
            st, [])
        else
          match scale_coordinates W H .API (c.getD 0 0) (c.getD 1 0) with
          | .error m => (.toolError m, st, [])
          | .ok (x, y) =>
            let dx := x - st.mouse_x
            let dy := y - st.mouse_y
            let st' : CompState := ⟨x, y⟩
            if a = "mouse_move" then
              if drv.fails 0 then
                (.driverError (.move dx dy) (drv.errMsg 0), st', [.move dx dy])
              else if drv.fails 1 then
                (.driverError .screenshot (drv.errMsg 1), st',
                  [.move dx dy, .screenshot])
              else
                (.ok ⟨some ("Moved mouse to " ++ toString x ++ ", " ++
                    toString y), none, some (drv.shot 1)⟩, st',
                  [.move dx dy, .screenshot])
            else
              if drv.fails 0 then
                if drv.fails 1 then
                  (.driverError .up (drv.errMsg 1), st', [.down, .up])
                else
                  (.driverError .down (drv.errMsg 0), st', [.down, .up])
              else if drv.fails 1 then
                if drv.fails 2 then
                  (.driverError .up (drv.errMsg 2), st',
                    [.down, .move dx dy, .up])
                else
                  (.driverError (.move dx dy) (drv.errMsg 1), st',
                    [.down, .move dx dy, .up])
              else if drv.fails 2 then
                if drv.fails 3 then
                  (.driverError .up (drv.errMsg 3), st',
                    [.down, .move dx dy, .screenshot, .up])
                else
                  (.driverError .screenshot (drv.errMsg 2), st',
                    [.down, .move dx dy, .screenshot, .up])
              else if drv.fails 3 then
                (.driverError .up (drv.errMsg 3), st',
                  [.down, .move dx dy, .screenshot, .up])
              else
                (.ok ⟨some ("Dragged mouse to " ++ toString x ++ ", " ++
                    toString y), none, some (drv.shot 2)⟩, st',
                  [.down, .move dx dy, .screenshot, .up])
    else if a = "key" ∨ a = "type" then
      match text with
      | none => (.toolError ("text is required for " ++ a), st, [])
      | some t =>
        if coordinate.isSome then
          (.toolError ("coordinate is not accepted for " ++ a), st, [])
        else if a = "key" then
          let k := map_xdotool_key_to_playwright_key t
          if drv.fails 0 then
            (.ok ⟨none, some ("Failed to press key: " ++ t ++ ": " ++
                drv.errMsg 0), none⟩, st, [.press k])
          else if drv.fails 1 then
            (.ok ⟨none, some ("Failed to press key: " ++ t ++ ": " ++
                drv.errMsg 1), none⟩, st, [.press k, .screenshot])
          else
            (.ok ⟨some ("Pressed key: " ++ t), none, some (drv.shot 1)⟩, st,
              [.press k, .screenshot])
        else
          if drv.fails 0 then
            (.driverError (.typeText t 12) (drv.errMsg 0), st, [.typeText t 12])
          else if drv.fails 1 then
            (.driverError .screenshot (drv.errMsg 1), st,
              [.typeText t 12, .screenshot])
          else
            (.ok ⟨some ("Typed: " ++ t), none, some (drv.shot 1)⟩, st,
              [.typeText t 12, .screenshot])
    else if a = "left_click" ∨ a = "right_click" ∨ a = "double_click" ∨
        a = "middle_click" ∨ a = "screenshot" ∨ a = "cursor_position" then
      if text.isSome then
        (.toolError ("text is not accepted for " ++ a), st, [])
      else if coordinate.isSome then
        (.toolError ("coordinate is not accepted for " ++ a), st, [])
      else if a = "screenshot" then
        if drv.fails 0 then
          (.driverError .screenshot (drv.errMsg 0), st, [.screenshot])
        else
          (.ok ⟨some "Taken screenshot", some "", some (drv.shot 0)⟩, st,
            [.screenshot])
      else if a = "cursor_position" then
        (.ok ⟨some ("X=" ++ toString st.mouse_x ++ ", Y=" ++
            toString st.mouse_y), none, none⟩, st, [])
      else if a = "double_click" then
        let cl : DriverCall := .click st.mouse_x st.mouse_y "left"
        if drv.fails 0 then
          (.driverError cl (drv.errMsg 0), st, [cl])
        else if drv.fails 1 then
          (.driverError (.waitTimeout 500) (drv.errMsg 1), st,
            [cl, .waitTimeout 500])
        else if drv.fails 2 then
          (.driverError cl (drv.errMsg 2), st, [cl, .waitTimeout 500, cl])
        else if drv.fails 3 then
          (.driverError .screenshot (drv.errMsg 3), st,
            [cl, .waitTimeout 500, cl, .screenshot])
        else
          (.ok ⟨some ("Clicked left button at " ++ toString st.mouse_x ++
              ", " ++ toString st.mouse_y), none, some (drv.shot 3)⟩, st,
            [cl, .waitTimeout 500, cl, .screenshot])
      else
        let b := if a = "left_click" then "left"
          else if a = "right_click" then "right" else "middle"
        let cl : DriverCall := .click st.mouse_x st.mouse_y b
        if drv.fails 0 then
          (.driverError cl (drv.errMsg 0), st, [cl])
        else if drv.fails 1 then
          (.driverError .screenshot (drv.errMsg 1), st, [cl, .screenshot])
        else
          (.ok ⟨some ("Clicked " ++ b ++ " button at " ++
              toString st.mouse_x ++ ", " ++ toString st.mouse_y), none,
              some (drv.shot 1)⟩, st, [cl, .screenshot])
    else
      (.toolError ("Invalid action: \"" ++ a ++ "\""), st, [])

/-- One agent tool call to the computer tool together with the driver oracle
in effect while it runs. -/
structure Step where
  action : Option String
  text : Option String
  coordinate : Option (List ℤ)
  drv : Driver

/-- The cursor state after dispatching one step from state `s`. -/
def stepState (W H : ℕ) (s : CompState) (stp : Step) : CompState :=
  (dispatch W H stp.action stp.text stp.coordinate stp.drv s).2.1

/-- The cursor state after dispatching a whole sequence of steps. -/
def runSeq (W H : ℕ) (steps : List Step) (st : CompState) : CompState :=
  steps.foldl (stepState W H) st

/-- The cursor-state transition rule as the spec states it: a pointer action
(`mouse_move` or `left_click_drag`) whose arguments pass validation and whose
coordinate scales successfully replaces the state with the device-space
coordinate produced by the scaling step; every other dispatch leaves the
state unchanged. -/
def specStep (W H : ℕ) (s : CompState) (stp : Step) : CompState :=
  if stp.action = some "mouse_move" ∨ stp.action = some "left_click_drag" then
    match stp.coordinate, stp.text with
    | some c, none =>
      if c.length = 2 ∧ (c.all fun i => decide (0 ≤ i)) then
        match scale_coordinates W H .API (c.getD 0 0) (c.getD 1 0) with
        | .ok (x, y) => ⟨x, y⟩
        | .error _ => s
      else s
    | _, _ => s
  else s

/-- The outcome of the `left_click_drag` branch of `dispatch` once
validation and scaling have produced the device target `(X, Y)`: an explicit
case table over which driver call (down = 0, move = 1, screenshot = 2,
up = last) raises first, used to reason about the try/finally structure. -/
def dragResult (drv : Driver) (st : CompState) (X Y : ℤ) :
    Outcome × CompState × List DriverCall :=
  let dx := X - st.mouse_x
  let dy := Y - st.mouse_y
  let st2 : CompState := ⟨X, Y⟩
  if drv.fails 0 then
    if drv.fails 1 then (.driverError .up (drv.errMsg 1), st2, [.down, .up])
    else (.driverError .down (drv.errMsg 0), st2, [.down, .up])
  else if drv.fails 1 then
    if drv.fails 2 then
      (.driverError .up (drv.errMsg 2), st2, [.down, .move dx dy, .up])
    else
      (.driverError (.move dx dy) (drv.errMsg 1), st2,
        [.down, .move dx dy, .up])
  else if drv.fails 2 then
    if drv.fails 3 then
      (.driverError .up (drv.errMsg 3), st2,
        [.down, .move dx dy, .screenshot, .up])
    else
      (.driverError .screenshot (drv.errMsg 2), st2,
        [.down, .move dx dy, .screenshot, .up])
  else if drv.fails 3 then
    (.driverError .up (drv.errMsg 3), st2,
      [.down, .move dx dy, .screenshot, .up])
  else
    (.ok ⟨some ("Dragged mouse to " ++ toString X ++ ", " ++ toString Y),
      none, some (drv.shot 2)⟩, st2, [.down, .move dx dy, .screenshot, .up])

namespace PW

/-- The parsed action payload of the playwright tool: the optional `type`
discriminator and the fields the three variants read. Python's `scale` is a
number formatted into a JavaScript snippet; it is modelled as an integer. -/
structure PWInput where
  type? : Option String
  url : String
  dx : ℤ
  dy : ℤ
  scale : ℤ

/-- Function `take_screenshot(page)` of `computer_use_demo/utils/screenshot.py`: try
`page.screenshot()`; on any exception retry with `timeout=0`; a failure of
the retry propagates. Returns the updated call index, the calls issued, and
either the base64 string or the raised message. -/
def take_screenshot (drv : ComputerUse.Driver) (n : ℕ) :
    ℕ × List ComputerUse.DriverCall × Except String String :=
  if drv.fails n then
    if drv.fails (n + 1) then
      (n + 2, [.screenshot, .screenshot], .error (drv.errMsg (n + 1)))
    else
      (n + 2, [.screenshot, .screenshot], .ok (drv.shot (n + 1)))
  else
    (n + 1, [.screenshot], .ok (drv.shot n))

open ComputerUse in
/-- Method `PlaywrightTool.__call__(action)` of
`computer_use_demo/tools/playwright_tool.py`. A payload without a `type`
field is reported as a `ToolFailure` (a `ToolResult` with only `error` set);
each variant wraps its capability call and the subsequent screenshot in
try/except, converting any exception into a `ToolFailure` carrying the
action's context and the exception's message. No exception escapes, so the
result type is simply a `ToolResult` plus the driver calls issued. -/
def pwDispatch (inp : PWInput) (drv : Driver) :
    ToolResult × List DriverCall :=
  match inp.type? with
  | none => (⟨none, some "Action must have a type", none⟩, [])
  | some ty =>
    if ty = "goto" then
      if drv.fails 0 then
        (⟨none, some ("Failed to navigate to page " ++ inp.url ++ ": " ++
            drv.errMsg 0), none⟩, [.goto inp.url])
      else
        match take_screenshot drv 1 with
        | (_, calls, .ok b) =>
          (⟨some ("Navigated to page " ++ inp.url), none, some b⟩,
            .goto inp.url :: calls)
        | (_, calls, .error m) =>
          (⟨none, some ("Failed to navigate to page " ++ inp.url ++ ": " ++ m),
            none⟩, .goto inp.url :: calls)
    else if ty = "scroll" then
      if drv.fails 0 then
        (⟨none, some ("Failed to scroll to bottom of page: " ++ drv.errMsg 0),
          none⟩, [.wheel inp.dx inp.dy])
      else
        match take_screenshot drv 1 with
        | (_, calls, .ok b) =>
          (⟨some ("Scrolled by " ++ toString inp.dx ++ " in x and " ++
              toString inp.dy ++ " in y"), none, some b⟩,
            .wheel inp.dx inp.dy :: calls)
        | (_, calls, .error m) =>
          (⟨none, some ("Failed to scroll to bottom of page: " ++ m), none⟩,
            .wheel inp.dx inp.dy :: calls)
    else if ty = "zoom" then
      if drv.fails 0 then
        (⟨none, some ("Failed to zoom to " ++ toString inp.scale ++ "%: " ++
            drv.errMsg 0), none⟩, [.evalZoom inp.scale])
      else
        match take_screenshot drv 1 with
        | (_, calls, .ok b) =>
          (⟨some ("Zoomed to " ++ toString inp.scale ++ "%"), none, some b⟩,
            .evalZoom inp.scale :: calls)
        | (_, calls, .error m) =>
          (⟨none, some ("Failed to zoom to " ++ toString inp.scale ++ "%: " ++
              m), none⟩, .evalZoom inp.scale :: calls)
    else
      (⟨none, some ("Invalid action: " ++ ty ++
          ". Valid actions: goto, scroll, zoom"), none⟩, [])

end PW

end ComputerUse

section ScratchChecks
open ComputerUse
example : selectTarget 1920 1080 = some FWXGA := by decide
example : selectTarget 1280 1024 = none := by decide
example : selectTarget 1024 768 = none := by decide
example : selectTarget 1025 766 = some XGA := by decide
example : scale_coordinates 1920 1080 .API 100 100 = .ok (141, 141) := by decide
example : scale_coordinates 1920 1080 .COMPUTER 141 141 = .ok (100, 100) := by decide
example : scale_coordinates 1920 1080 .API 2000 5 =
    .error "Coordinates 2000, 5 are out of bounds" := by decide
example : pyRound 7 2 = 4 := by decide
example : pyRound 5 2 = 2 := by decide
example : pyRound (-3) 2 = -2 := by decide
end ScratchChecks

namespace ComputerUse

/-- Rounding error bound: `pyRound p q` is within half a unit of `p / q`: scaled by `2q`,
`|2 (q · pyRound p q − p)| ≤ q`, for `0 < q`. -/
theorem pyRound_err (p q : ℤ) (hq : 0 < q) :
    |2 * (q * pyRound p q - p)| ≤ q := by
  have hmod : Int.fmod p q = p - q * Int.fdiv p q := Int.fmod_def p q
  have h0 : 0 ≤ Int.fmod p q := by
    rw [Int.fmod_eq_emod p (le_of_lt hq)]
    exact Int.emod_nonneg p (ne_of_gt hq)
  have h1 : Int.fmod p q < q := by
    rw [Int.fmod_eq_emod p (le_of_lt hq)]
    exact Int.emod_lt_of_pos p hq
  unfold pyRound
  split_ifs with hc1 hc2 hc3 <;> rw [abs_le] <;> constructor <;>
    linarith [hmod, h0, h1]

/-- Scaling a value into a fraction-`b/a`-sized space by `pyRound` and back
moves it by at most one pixel, provided the scale denominators satisfy
`b < 3a` (true for every selectable target, where the inverse scale factor
is below `51/50`). -/
theorem pyRound_roundtrip (a b v : ℤ) (ha : 0 < a) (hb : 0 < b)
    (hba : b < 3 * a) :
    |pyRound (pyRound (v * a) b * b) a - v| ≤ 1 := by
  have e1 : |2 * (b * pyRound (v * a) b - v * a)| ≤ b := pyRound_err (v * a) b hb
  have e2 : |2 * (a * pyRound (pyRound (v * a) b * b) a -
      pyRound (v * a) b * b)| ≤ a :=
    pyRound_err (pyRound (v * a) b * b) a ha
  set Y := pyRound (v * a) b with hY
  set Z := pyRound (Y * b) a with hZ
  have habs : |2 * a * (Z - v)| ≤ a + b := by
    have h := abs_add (2 * (a * Z - Y * b)) (2 * (b * Y - v * a))
    have heq : 2 * (a * Z - Y * b) + 2 * (b * Y - v * a) = 2 * a * (Z - v) := by
      ring
    rw [heq] at h
    exact h.trans (add_le_add e2 e1)
  rw [abs_mul, abs_of_pos (by linarith : (0:ℤ) < 2 * a)] at habs
  have h2 : 2 * a * |Z - v| < 2 * a * 2 := by linarith
  have h3 : |Z - v| < 2 := lt_of_mul_lt_mul_left h2 (by linarith)
  linarith [Int.lt_iff_add_one_le.mp h3]

/-- What a successful target scan guarantees: the selected entry is one of
the three table entries, its aspect ratio matches, and its width is strictly
below the device width. -/
theorem selectTarget_some (W H : ℕ) (d : Resolution)
    (h : selectTarget W H = some d) :
    (d = XGA ∨ d = WXGA ∨ d = FWXGA) ∧ ratioMatches W H d ∧ d.width < W := by
  simp only [selectTarget, scanTargets, MAX_SCALING_TARGETS] at h
  split_ifs at h <;> simp_all [XGA, WXGA, FWXGA] <;> subst h <;> simp_all

/-- For a selected target the vertical inverse scale factor is below `51/50`,
hence in particular the target height is below three device heights. -/
theorem target_height_lt (W H : ℕ) (d : Resolution) (hr : ratioMatches W H d)
    (hw : d.width < W) (hle : d.height ≤ d.width) :
    (d.height : ℤ) < 3 * (H : ℤ) := by
  unfold ratioMatches at hr
  have hpos : 0 < d.height * H := lt_of_le_of_lt (Nat.zero_le _) hr
  have hH : 0 < H := by
    rcases Nat.eq_zero_or_pos H with h | h
    · rw [h, Nat.mul_zero] at hpos; exact absurd hpos (lt_irrefl 0)
    · exact h
  have hth : 0 < d.height := by
    rcases Nat.eq_zero_or_pos d.height with h | h
    · rw [h, Nat.zero_mul] at hpos; exact absurd hpos (lt_irrefl 0)
    · exact h
  have hrZ : 50 * |(d.width : ℤ) * H - (d.height : ℤ) * W| <
      (d.height : ℤ) * H := by
    zify at hr
    exact hr
  have hwZ : (d.width : ℤ) < W := by exact_mod_cast hw
  have hleZ : (d.height : ℤ) ≤ d.width := by exact_mod_cast hle
  have hHZ : (0 : ℤ) < H := by exact_mod_cast hH
  have hthZ : (0 : ℤ) < d.height := by exact_mod_cast hth
  have hWZ : (0 : ℤ) < W := lt_trans (lt_of_lt_of_le hthZ hleZ) hwZ
  have h5 : (d.height : ℤ) * W - (d.width : ℤ) * H ≤
      |(d.width : ℤ) * H - (d.height : ℤ) * W| := by
    rw [abs_sub_comm]; exact le_abs_self _
  have h6 : 50 * ((d.height : ℤ) * W) <
      (d.height : ℤ) * H + 50 * ((d.width : ℤ) * H) := by linarith
  have h7 : (d.height : ℤ) * H ≤ (d.width : ℤ) * H :=
    mul_le_mul_of_nonneg_right hleZ (le_of_lt hHZ)
  have h9 : (d.width : ℤ) * H < (W : ℤ) * H := mul_lt_mul_of_pos_right hwZ hHZ
  have h11 : (W : ℤ) * (50 * d.height) < (W : ℤ) * (51 * H) := by nlinarith
  have h12 : 50 * (d.height : ℤ) < 51 * H :=
    lt_of_mul_lt_mul_left h11 (le_of_lt hWZ)
  linarith

/-- C1: for every device resolution `(W, H)` for which the scaling-target
scan selects a target entry, and every agent-space coordinate `(x, y)` with
`0 ≤ x ≤ W` and `0 ≤ y ≤ H`, `scale_coordinates` with source API followed by
`scale_coordinates` with source COMPUTER yields a coordinate within one pixel
of `(x, y)` on each axis. -/
theorem C1_scaling_roundtrip (W H : ℕ) (d : Resolution) (x y : ℤ)
    (hsel : selectTarget W H = some d) (hx0 : 0 ≤ x) (hx : x ≤ (W : ℤ))
    (hy0 : 0 ≤ y) (hy : y ≤ (H : ℤ)) :
    ∃ X Y x2 y2,
      scale_coordinates W H .API x y = .ok (X, Y) ∧
      scale_coordinates W H .COMPUTER X Y = .ok (x2, y2) ∧
      |x2 - x| ≤ 1 ∧ |y2 - y| ≤ 1 := by
  obtain ⟨hmem, hr, hw⟩ := selectTarget_some W H d hsel
  have hfacts : d.height ≤ d.width ∧ 0 < d.height ∧ 0 < d.width := by
    rcases hmem with h | h | h <;> subst h <;> exact ⟨by decide, by decide, by decide⟩
  obtain ⟨hle, hthpos, htwpos⟩ := hfacts
  have hWpos : 0 < W := lt_trans htwpos hw
  have h3H : (d.height : ℤ) < 3 * (H : ℤ) := target_height_lt W H d hr hw hle
  have h3W : (d.width : ℤ) < 3 * (W : ℤ) := by
    have : (d.width : ℤ) < W := by exact_mod_cast hw
    have : (0 : ℤ) ≤ W := by positivity
    linarith
  have hcond : ¬(x > (W : ℤ) ∨ y > (H : ℤ)) := by
    push_neg
    exact ⟨hx, hy⟩
  have hAPI : scale_coordinates W H .API x y =
      .ok (pyRound (x * W) d.width, pyRound (y * H) d.height) := by
    simp [scale_coordinates, scaling_enabled, hsel, hcond]
  have hCOMP : scale_coordinates W H .COMPUTER (pyRound (x * W) d.width)
      (pyRound (y * H) d.height) =
      .ok (pyRound (pyRound (x * W) d.width * d.width) W,
        pyRound (pyRound (y * H) d.height * d.height) H) := by
    simp [scale_coordinates, scaling_enabled, hsel]
  refine ⟨_, _, _, _, hAPI, hCOMP, ?_, ?_⟩
  · exact pyRound_roundtrip W d.width x (by exact_mod_cast hWpos)
      (by exact_mod_cast htwpos) h3W
  · have hHpos : 0 < H := by
      by_contra hcon
      push_neg at hcon
      interval_cases H
      simp at h3H
      linarith [h3H, (by exact_mod_cast hthpos : (0:ℤ) < (d.height : ℤ))]
    exact pyRound_roundtrip H d.height y (by exact_mod_cast hHpos)
      (by exact_mod_cast hthpos) h3H

/-- C1 witness at the 1920x1080 device resolution (selects FWXGA) and
agent coordinate (100, 100). -/
theorem C1_scaling_roundtrip_witness :
    selectTarget 1920 1080 = some FWXGA ∧
    (∃ X Y x2 y2,
      scale_coordinates 1920 1080 .API 100 100 = .ok (X, Y) ∧
      scale_coordinates 1920 1080 .COMPUTER X Y = .ok (x2, y2) ∧
      |x2 - 100| ≤ 1 ∧ |y2 - 100| ≤ 1) :=
  ⟨by decide,
    C1_scaling_roundtrip 1920 1080 FWXGA 100 100 (by decide) (by decide)
      (by decide) (by decide) (by decide)⟩

/-- C2: with an active scaling target, API-source scaling raises the
out-of-bounds `ToolError` exactly when `x > W` or `y > H`; every other
non-negative input succeeds with `(round(x / scale_x), round(y / scale_y))`
(scaling up to device pixels; `x / (tw/W) = x*W/tw` exactly). -/
theorem C2_bounds_check (W H : ℕ) (d : Resolution) (x y : ℤ)
    (hsel : selectTarget W H = some d) (hx0 : 0 ≤ x) (hy0 : 0 ≤ y) :
    (x > (W : ℤ) ∨ y > (H : ℤ) →
      scale_coordinates W H .API x y =
        .error ("Coordinates " ++ toString x ++ ", " ++ toString y ++
          " are out of bounds")) ∧
    (¬(x > (W : ℤ) ∨ y > (H : ℤ)) →
      scale_coordinates W H .API x y =
        .ok (pyRound (x * W) d.width, pyRound (y * H) d.height)) := by
  constructor
  · intro hgt
    simp [scale_coordinates, scaling_enabled, hsel, hgt]
  · intro hle
    simp [scale_coordinates, scaling_enabled, hsel, hle]

/-- C2 witness: at 1920x1080 (FWXGA target), (2000, 5) is rejected as out of
bounds while (100, 100) succeeds and scales up. -/
theorem C2_bounds_check_witness :
    scale_coordinates 1920 1080 .API 2000 5 =
      .error "Coordinates 2000, 5 are out of bounds" ∧
    scale_coordinates 1920 1080 .API 100 100 =
      .ok (pyRound (100 * 1920) 1366, pyRound (100 * 1080) 768) :=
  ⟨by
    have h := (C2_bounds_check 1920 1080 FWXGA 2000 5 (by decide) (by decide)
      (by decide)).1 (by decide)
    simpa using h,
   by
    have h := (C2_bounds_check 1920 1080 FWXGA 100 100 (by decide) (by decide)
      (by decide)).2 (by decide)
    simpa [FWXGA] using h⟩

/-- C3: the target scan walks the table in the fixed order XGA, WXGA, FWXGA,
stops at the first aspect-ratio match (within 0.02), and selects that entry
only when its width is strictly below `W`; when nothing is selected, both
scaling directions are the identity. -/
theorem C3_target_selection (W H : ℕ) (hW : 0 < W) (hH : 0 < H) :
    (∀ d : Resolution,
      selectTarget W H = some d ↔
        (ratioMatches W H XGA ∧ XGA.width < W ∧ d = XGA) ∨
        (¬ratioMatches W H XGA ∧ ratioMatches W H WXGA ∧ WXGA.width < W ∧
          d = WXGA) ∨
        (¬ratioMatches W H XGA ∧ ¬ratioMatches W H WXGA ∧
          ratioMatches W H FWXGA ∧ FWXGA.width < W ∧ d = FWXGA)) ∧
    (selectTarget W H = none →
      ∀ (src : ScalingSource) (x y : ℤ),
        scale_coordinates W H src x y = .ok (x, y)) := by
  constructor
  · intro d
    simp only [selectTarget, scanTargets, MAX_SCALING_TARGETS]
    split_ifs <;> simp_all [XGA, WXGA, FWXGA, eq_comm]
  · intro hnone src x y
    cases src <;> simp [scale_coordinates, scaling_enabled, hnone]

/-- C3 witness: a 5:1 resolution (3000x600) matches no table entry, so both
directions are the identity; applied at (5, 7) with source API. -/
theorem C3_target_selection_witness :
    scale_coordinates 3000 600 .API 5 7 = .ok (5, 7) :=
  (C3_target_selection 3000 600 (by decide) (by decide)).2 (by decide) .API 5 7

set_option maxHeartbeats 2000000 in
/-- The cursor state returned by one `dispatch` is exactly the spec's
transition rule: pointer actions that pass validation and scaling move it to
the scaled device-space target, everything else leaves it unchanged. -/
theorem stepState_eq_specStep (W H : ℕ) (s : CompState) (stp : Step) :
    stepState W H s stp = specStep W H s stp := by
  obtain ⟨a, t, c, drv⟩ := stp
  rcases a with _ | a
  · simp [stepState, specStep, dispatch]
  · by_cases hmm : a = "mouse_move" ∨ a = "left_click_drag"
    · rcases hmm with h | h <;> subst h
      · rcases t with _ | t
        · rcases c with _ | (_ | ⟨x0, _ | ⟨x1, _ | ⟨x2, c⟩⟩⟩)
          · simp [stepState, specStep, dispatch]
          · simp [stepState, specStep, dispatch]
          · simp [stepState, specStep, dispatch]
          · cases hall : (([x0, x1] : List ℤ).all fun i => decide (0 ≤ i))
            · simp only [stepState, specStep, dispatch, hall,
                List.getD_cons_zero, List.getD_cons_succ]
              rfl
            · rcases hscale : scale_coordinates W H .API x0 x1
                with m | ⟨X, Y⟩ <;>
                simp only [stepState, specStep, dispatch, hall,
                  List.getD_cons_zero, List.getD_cons_succ] <;>
                rw [hscale]
              · rfl
              · cases hf0 : drv.fails 0 <;> cases hf1 : drv.fails 1 <;>
                  cases hf2 : drv.fails 2 <;> cases hf3 : drv.fails 3 <;>
                  simp only [hf0, hf1, hf2, hf3] <;> rfl
          · simp [stepState, specStep, dispatch]
        · rcases c with _ | c
          · simp [stepState, specStep, dispatch]
          · simp [stepState, specStep, dispatch]
      · rcases t with _ | t
        · rcases c with _ | (_ | ⟨x0, _ | ⟨x1, _ | ⟨x2, c⟩⟩⟩)
          · simp [stepState, specStep, dispatch]
          · simp [stepState, specStep, dispatch]
          · simp [stepState, specStep, dispatch]
          · cases hall : (([x0, x1] : List ℤ).all fun i => decide (0 ≤ i))
            · simp only [stepState, specStep, dispatch, hall,
                List.getD_cons_zero, List.getD_cons_succ]
              rfl
            · rcases hscale : scale_coordinates W H .API x0 x1
                with m | ⟨X, Y⟩ <;>
                simp only [stepState, specStep, dispatch, hall,
                  List.getD_cons_zero, List.getD_cons_succ] <;>
                rw [hscale]
              · rfl
              · cases hf0 : drv.fails 0 <;> cases hf1 : drv.fails 1 <;>
                  cases hf2 : drv.fails 2 <;> cases hf3 : drv.fails 3 <;>
                  simp only [hf0, hf1, hf2, hf3] <;> rfl
          · simp [stepState, specStep, dispatch]
        · rcases c with _ | c
          · simp [stepState, specStep, dispatch]
          · simp [stepState, specStep, dispatch]
    · have hs : specStep W H s ⟨some a, t, c, drv⟩ = s := by
        simp only [specStep, Option.some.injEq]
        rw [if_neg hmm]
      rw [hs]
      by_cases h0 : a = ""
      · simp [stepState, dispatch, h0]
      · by_cases hkt : a = "key" ∨ a = "type"
        · rcases t with _ | t
          · simp [stepState, dispatch, h0, hmm, hkt]
          · simp only [stepState, dispatch, h0, hmm, hkt, if_false, if_true]
            split_ifs <;> rfl
        · by_cases hz : a = "left_click" ∨ a = "right_click" ∨
            a = "double_click" ∨ a = "middle_click" ∨ a = "screenshot" ∨
            a = "cursor_position"
          · simp only [stepState, dispatch, h0, hmm, hkt, hz, if_false,
              if_true]
            split_ifs <;> rfl
          · simp [stepState, dispatch, h0, hmm, hkt, hz]

/-- C4: `cursor_position` performs no driver call and no screenshot and
reports exactly the virtual cursor state, which after any sequence of
dispatched actions equals the fold of the spec's transition rule (the scaled
device-space coordinate of the most recent successful pointer action,
starting from `(0, 0)`); no non-pointer action mutates the cursor state. -/
theorem C4_cursor_consistency (W H : ℕ) (steps : List Step) (drv : Driver) :
    runSeq W H steps ⟨0, 0⟩ = steps.foldl (specStep W H) ⟨0, 0⟩ ∧
    (∀ st : CompState,
      dispatch W H (some "cursor_position") none none drv st =
        (.ok ⟨some ("X=" ++ toString st.mouse_x ++ ", Y=" ++
            toString st.mouse_y), none, none⟩, st, [])) ∧
    (∀ (a t : Option String) (c : Option (List ℤ)) (d2 : Driver)
        (st : CompState),
      ¬(a = some "mouse_move" ∨ a = some "left_click_drag") →
      (dispatch W H a t c d2 st).2.1 = st) := by
  refine ⟨?_, ?_, ?_⟩
  · have hfun : stepState W H = specStep W H := by
      funext s stp
      exact stepState_eq_specStep W H s stp
    rw [runSeq, hfun]
  · intro st
    rfl
  · intro a t c d2 st hnp
    have h := stepState_eq_specStep W H st ⟨a, t, c, d2⟩
    rw [stepState] at h
    rw [h]
    simp only [specStep]
    rw [if_neg hnp]

/-- C4 witness: one `mouse_move` to agent (100, 100) at 1920x1080 puts the
cursor at device (141, 141); `cursor_position` then reports exactly that,
with no driver calls; a `screenshot` dispatch leaves the state unchanged. -/
theorem C4_cursor_consistency_witness :
    (runSeq 1920 1080 [⟨some "mouse_move", none, some [100, 100],
        okDriver "IMG"⟩] ⟨0, 0⟩ =
      [(⟨some "mouse_move", none, some [100, 100], okDriver "IMG"⟩ : Step)].foldl
        (specStep 1920 1080) ⟨0, 0⟩) ∧
    (dispatch 1920 1080 (some "cursor_position") none none (okDriver "IMG")
        ⟨141, 141⟩ =
      (.ok ⟨some "X=141, Y=141", none, none⟩, ⟨141, 141⟩, [])) ∧
    ((dispatch 1920 1080 (some "screenshot") none none (okDriver "IMG")
        ⟨7, 9⟩).2.1 = ⟨7, 9⟩) := by
  refine ⟨(C4_cursor_consistency 1920 1080 _ (okDriver "IMG")).1, ?_, ?_⟩
  · exact (C4_cursor_consistency 1920 1080 [] (okDriver "IMG")).2.1 ⟨141, 141⟩
  · exact (C4_cursor_consistency 1920 1080 [] (okDriver "IMG")).2.2
      (some "screenshot") none none (okDriver "IMG") ⟨7, 9⟩ (by decide)

/-- A validated, successfully scaled `left_click_drag` dispatch equals the
explicit `dragResult` case table. -/
theorem drag_dispatch_eq (W H : ℕ) (x0 x1 X Y : ℤ) (drv : Driver)
    (st : CompState)
    (hscale : scale_coordinates W H .API x0 x1 = .ok (X, Y))
    (hall : (([x0, x1] : List ℤ).all fun i => decide (0 ≤ i)) = true) :
    dispatch W H (some "left_click_drag") none (some [x0, x1]) drv st =
      dragResult drv st X Y := by
  simp only [dispatch, dragResult, hall, List.getD_cons_zero,
    List.getD_cons_succ]
  rw [hscale]
  rfl

set_option maxHeartbeats 1000000 in
/-- C5: in `left_click_drag`, once validation and scaling pass, the button
release is issued exactly once on every exit path — after the button-down, at
the very end of the trace, whether the down, the move, or the screenshot
raises or everything succeeds — and a failing move step still surfaces as a
raised error (after the release, which sits behind it in the trace). -/
theorem C5_guaranteed_release (W H : ℕ) (c : List ℤ) (drv : Driver)
    (st : CompState) (X Y : ℤ)
    (hscale : scale_coordinates W H .API (c.getD 0 0) (c.getD 1 0) =
      .ok (X, Y))
    (hlen : c.length = 2)
    (hall : (c.all fun i => decide (0 ≤ i)) = true) :
    ((dispatch W H (some "left_click_drag") none (some c) drv st).2.2.count
        .up = 1) ∧
    ((dispatch W H (some "left_click_drag") none (some c) drv st).2.2.head? =
      some .down) ∧
    ((dispatch W H (some "left_click_drag") none (some c) drv
        st).2.2.getLast? = some .up) ∧
    (drv.fails 0 = false → drv.fails 1 = true → drv.fails 2 = false →
      (dispatch W H (some "left_click_drag") none (some c) drv st).1 =
        .driverError (.move (X - st.mouse_x) (Y - st.mouse_y))
          (drv.errMsg 1)) := by
  rcases c with _ | ⟨x0, _ | ⟨x1, _ | ⟨x2, c⟩⟩⟩ <;> simp at hlen
  simp only [List.getD_cons_zero, List.getD_cons_succ] at hscale
  rw [drag_dispatch_eq W H x0 x1 X Y drv st hscale hall]
  cases hf0 : drv.fails 0 <;> cases hf1 : drv.fails 1 <;>
    cases hf2 : drv.fails 2 <;> cases hf3 : drv.fails 3 <;>
    simp only [dragResult, hf0, hf1, hf2, hf3] <;>
    exact ⟨rfl, rfl, rfl, fun h0 h1 h2 => by
      first
        | rfl
        | exact Bool.noConfusion h0
        | exact Bool.noConfusion h1
        | exact Bool.noConfusion h2⟩

/-- C5 witness: at 1920x1080 with target (100, 100), a driver whose second
call (the move) raises: the trace is down, move, up and the move's error is
the outcome. -/
theorem C5_guaranteed_release_witness :
    ((dispatch 1920 1080 (some "left_click_drag") none (some [100, 100])
        (failAt 1 "boom" "IMG") ⟨0, 0⟩).2.2.count .up = 1) ∧
    ((dispatch 1920 1080 (some "left_click_drag") none (some [100, 100])
        (failAt 1 "boom" "IMG") ⟨0, 0⟩).1 =
      .driverError (.move 141 141) "boom") := by
  have h := C5_guaranteed_release 1920 1080 [100, 100]
    (failAt 1 "boom" "IMG") ⟨0, 0⟩ 141 141 (by decide) (by decide) (by decide)
  exact ⟨h.1, h.2.2.2 rfl rfl rfl⟩

/-- C6: `mouse_move` with both `text` and `coordinate` set raises the
`ToolError` naming the `text` field before any side effect: no driver call,
no scaling, no screenshot, no cursor mutation — whatever the coordinate
payload holds. -/
theorem C6_validation_precedence (W H : ℕ) (t : String) (c : List ℤ)
    (drv : Driver) (st : CompState) :
    dispatch W H (some "mouse_move") (some t) (some c) drv st =
      (.toolError "text is not accepted for mouse_move", st, []) := rfl

/-- C10: for pointer actions, the cursor state is assigned the scaled target
before any driver call, so a failing driver (move, button-down, screenshot)
leaves the cursor at the new position — the update is not rolled back even
though the dispatch surfaces a raised error. -/
theorem C10_no_rollback (W H : ℕ) (a : String) (c : List ℤ) (drv : Driver)
    (st : CompState) (X Y : ℤ)
    (ha : a = "mouse_move" ∨ a = "left_click_drag")
    (hscale : scale_coordinates W H .API (c.getD 0 0) (c.getD 1 0) =
      .ok (X, Y))
    (hlen : c.length = 2)
    (hall : (c.all fun i => decide (0 ≤ i)) = true) :
    ((dispatch W H (some a) none (some c) drv st).2.1 = ⟨X, Y⟩) ∧
    (drv.fails 0 = true →
      ∃ call msg, (dispatch W H (some a) none (some c) drv st).1 =
        .driverError call msg) := by
  rcases c with _ | ⟨x0, _ | ⟨x1, _ | ⟨x2, c⟩⟩⟩ <;> simp at hlen
  simp only [List.getD_cons_zero, List.getD_cons_succ] at hscale
  rcases ha with h | h <;> subst h <;> constructor
  · have h := stepState_eq_specStep W H st
      ⟨some "mouse_move", none, some [x0, x1], drv⟩
    rw [stepState] at h
    rw [h]
    simp only [specStep, hall, List.getD_cons_zero, List.getD_cons_succ]
    rw [hscale]
    rfl
  · intro hf
    cases hf1 : drv.fails 1 <;>
      simp only [dispatch, hall, List.getD_cons_zero, List.getD_cons_succ,
        hf, hf1] <;>
      rw [hscale] <;>
      exact ⟨_, _, rfl⟩
  · have h := stepState_eq_specStep W H st
      ⟨some "left_click_drag", none, some [x0, x1], drv⟩
    rw [stepState] at h
    rw [h]
    simp only [specStep, hall, List.getD_cons_zero, List.getD_cons_succ]
    rw [hscale]
    rfl
  · intro hf
    cases hf1 : drv.fails 1 <;>
      simp only [dispatch, hall, List.getD_cons_zero, List.getD_cons_succ,
        hf, hf1] <;>
      rw [hscale] <;>
      exact ⟨_, _, rfl⟩

/-- C10 witness: at 1920x1080 with a driver whose first call raises, a
`mouse_move` to (100, 100) leaves the cursor at the scaled (141, 141) and
surfaces a raised driver error. -/
theorem C10_no_rollback_witness :
    ((dispatch 1920 1080 (some "mouse_move") none (some [100, 100])
        (failAt 0 "boom" "IMG") ⟨0, 0⟩).2.1 = (⟨141, 141⟩ : CompState)) ∧
    (∃ call msg,
      (dispatch 1920 1080 (some "mouse_move") none (some [100, 100])
        (failAt 0 "boom" "IMG") ⟨0, 0⟩).1 = .driverError call msg) := by
  have h := C10_no_rollback 1920 1080 "mouse_move" [100, 100]
    (failAt 0 "boom" "IMG") ⟨0, 0⟩ 141 141 (Or.inl rfl) (by decide)
    (by decide) (by decide)
  exact ⟨h.1, h.2 rfl⟩

/-- C7 counterexample: the `screenshot` action's happy-path result carries
`output = "Taken screenshot"` together with `error = ""` — the error field is
the empty string, not null — so the "exactly one of output/error is
non-null" invariant fails on it. -/
theorem C7_screenshot_counterexample :
    ((dispatch 1920 1080 (some "screenshot") none none (okDriver "IMG")
        ⟨0, 0⟩).1 =
      .ok ⟨some "Taken screenshot", some "", some "IMG"⟩) ∧
    ¬ exactlyOneSet ⟨some "Taken screenshot", some "", some "IMG"⟩ :=
  ⟨rfl, by decide⟩

/-- C7 as amended: the screenshot action returns a single result with
`output = "Taken screenshot"`, a non-null image, and an *empty-string*
(hence non-null) error field; both text fields are set, with the error
empty rather than null. -/
theorem C7_screenshot_amended (W H : ℕ) (drv : Driver) (st : CompState)
    (h : drv.fails 0 = false) :
    dispatch W H (some "screenshot") none none drv st =
      (.ok ⟨some "Taken screenshot", some "", some (drv.shot 0)⟩, st,
        [.screenshot]) := by
  simp only [dispatch, h]
  rfl

/-- C7 witness: the amended statement at 1920x1080 with a driver that
succeeds and returns "IMG". -/
theorem C7_screenshot_amended_witness :
    dispatch 1920 1080 (some "screenshot") none none (okDriver "IMG")
        ⟨0, 0⟩ =
      (.ok ⟨some "Taken screenshot", some "", some "IMG"⟩, ⟨0, 0⟩,
        [.screenshot]) :=
  C7_screenshot_amended 1920 1080 (okDriver "IMG") ⟨0, 0⟩ rfl

/-- C8: a driver failure during the key press (or the screenshot inside the
same try) is returned as a result with `error` set and no image — never
raised — while on success the output echoes the original untranslated key
name even though the key actually pressed is its mapped translation
(`"Return"` maps to `"Enter"`). -/
theorem C8_key_reporting (W H : ℕ) (t : String) (drv : Driver)
    (st : CompState) :
    map_xdotool_key_to_playwright_key "Return" = "Enter" ∧
    (drv.fails 0 = true →
      dispatch W H (some "key") (some t) none drv st =
        (.ok ⟨none, some ("Failed to press key: " ++ t ++ ": " ++
            drv.errMsg 0), none⟩, st,
          [.press (map_xdotool_key_to_playwright_key t)])) ∧
    (drv.fails 0 = false → drv.fails 1 = false →
      dispatch W H (some "key") (some t) none drv st =
        (.ok ⟨some ("Pressed key: " ++ t), none, some (drv.shot 1)⟩, st,
          [.press (map_xdotool_key_to_playwright_key t), .screenshot])) := by
  refine ⟨rfl, ?_, ?_⟩
  · intro h
    simp only [dispatch, h]
    rfl
  · intro h0 h1
    simp only [dispatch, h0, h1]
    rfl

/-- C8 witness: pressing "Return" with a failing driver reports the error in
the result (driver key "Enter" was attempted); with a healthy driver the
output echoes "Return" while the trace shows "Enter" was pressed. -/
theorem C8_key_reporting_witness :
    (dispatch 1920 1080 (some "key") (some "Return") none
        (failAt 0 "boom" "IMG") ⟨0, 0⟩ =
      (.ok ⟨none, some "Failed to press key: Return: boom", none⟩, ⟨0, 0⟩,
        [.press "Enter"])) ∧
    (dispatch 1920 1080 (some "key") (some "Return") none (okDriver "IMG")
        ⟨0, 0⟩ =
      (.ok ⟨some "Pressed key: Return", none, some "IMG"⟩, ⟨0, 0⟩,
        [.press "Enter", .screenshot])) := by
  constructor
  · exact (C8_key_reporting 1920 1080 "Return" (failAt 0 "boom" "IMG")
      ⟨0, 0⟩).2.1 rfl
  · exact (C8_key_reporting 1920 1080 "Return" (okDriver "IMG") ⟨0, 0⟩).2.2
      rfl rfl

/-- C9: in the playwright tool, a payload without a `type` field is a
reported error (not a crash), and an exception from the goto/scroll/zoom
capability call is converted into a result whose error carries the action's
context (for goto, the URL) and the cause, with null output — never
propagated (the dispatch function is total and always returns a result). -/
theorem C9_playwright_errors (inp : PW.PWInput) (drv : Driver) :
    (inp.type? = none →
      PW.pwDispatch inp drv =
        (⟨none, some "Action must have a type", none⟩, [])) ∧
    (inp.type? = some "goto" → drv.fails 0 = true →
      PW.pwDispatch inp drv =
        (⟨none, some ("Failed to navigate to page " ++ inp.url ++ ": " ++
            drv.errMsg 0), none⟩, [.goto inp.url])) ∧
    (inp.type? = some "scroll" → drv.fails 0 = true →
      PW.pwDispatch inp drv =
        (⟨none, some ("Failed to scroll to bottom of page: " ++
            drv.errMsg 0), none⟩, [.wheel inp.dx inp.dy])) ∧
    (inp.type? = some "zoom" → drv.fails 0 = true →
      PW.pwDispatch inp drv =
        (⟨none, some ("Failed to zoom to " ++ toString inp.scale ++ "%: " ++
            drv.errMsg 0), none⟩, [.evalZoom inp.scale])) := by
  refine ⟨?_, ?_, ?_, ?_⟩
  · intro hty
    simp only [PW.pwDispatch, hty]
  · intro hty hf
    simp only [PW.pwDispatch, hty, hf]
    rfl
  · intro hty hf
    simp only [PW.pwDispatch, hty, hf]
    rfl
  · intro hty hf
    simp only [PW.pwDispatch, hty, hf]
    rfl

/-- C9 witness: a type-less payload is reported; failing goto/scroll/zoom
capabilities are each converted to the contextual error result. -/
theorem C9_playwright_errors_witness :
    (PW.pwDispatch ⟨none, "u", 1, 2, 3⟩ (okDriver "IMG") =
      (⟨none, some "Action must have a type", none⟩, [])) ∧
    (PW.pwDispatch ⟨some "goto", "http://x", 0, 0, 0⟩
        (failAt 0 "net down" "IMG") =
      (⟨none, some "Failed to navigate to page http://x: net down", none⟩,
        [.goto "http://x"])) ∧
    (PW.pwDispatch ⟨some "scroll", "", 3, 4, 0⟩ (failAt 0 "boom" "IMG") =
      (⟨none, some "Failed to scroll to bottom of page: boom", none⟩,
        [.wheel 3 4])) ∧
    (PW.pwDispatch ⟨some "zoom", "", 0, 0, 150⟩ (failAt 0 "boom" "IMG") =
      (⟨none, some "Failed to zoom to 150%: boom", none⟩,
        [.evalZoom 150])) := by
  refine ⟨?_, ?_, ?_, ?_⟩
  · exact (C9_playwright_errors ⟨none, "u", 1, 2, 3⟩ (okDriver "IMG")).1 rfl
  · exact (C9_playwright_errors ⟨some "goto", "http://x", 0, 0, 0⟩
      (failAt 0 "net down" "IMG")).2.1 rfl rfl
  · exact (C9_playwright_errors ⟨some "scroll", "", 3, 4, 0⟩
      (failAt 0 "boom" "IMG")).2.2.1 rfl rfl
  · exact (C9_playwright_errors ⟨some "zoom", "", 0, 0, 150⟩
      (failAt 0 "boom" "IMG")).2.2.2 rfl rfl

end ComputerUse
